import Mathlib

/-!
Formal model of `parse_monitoring.py` (server-loadtest monitoring parser).

A monitoring log file is modelled as `Option (List String)`:
`none` is a missing file (where the Python code calls `Path.exists()` this
yields an empty result; where it calls `open` directly it raises
`FileNotFoundError`, modelled with `Except`), and `some lines` is the file
content split into lines, each line given without its trailing newline.
Machine floats are modelled as rationals `ℚ`; every numeric literal that
appears in the claims is exactly representable, so no rounding behaviour is
lost for the properties proved here.
-/

/-! ### Python string primitives -/

/-- Whitespace characters recognised by Python `str.strip` / `str.split` /
regex `\s` (ASCII range). -/
def isPySpace (c : Char) : Bool :=
  c == ' ' || c == '\t' || c == '\n' || c == '\r' || c == '\x0b' || c == '\x0c'

/-- Python `str.strip()` with no arguments. -/
def pyStrip (s : String) : String :=
  String.mk (((s.toList.dropWhile isPySpace).reverse.dropWhile isPySpace).reverse)

/-- Helper for `pySplit`: accumulates the current word (reversed). -/
def pySplitChars : List Char → List Char → List String
  | [], acc => if acc.isEmpty then [] else [String.mk acc.reverse]
  | c :: cs, acc =>
    if isPySpace c then
      if acc.isEmpty then pySplitChars cs []
      else String.mk acc.reverse :: pySplitChars cs []
    else pySplitChars cs (c :: acc)

/-- Python `str.split()` with no arguments: splits on whitespace runs and
drops empty fields. -/
def pySplit (s : String) : List String := pySplitChars s.toList []

/-- Boolean test that `p` is a prefix of the second list. -/
def listPrefixOf : List Char → List Char → Bool
  | [], _ => true
  | _ :: _, [] => false
  | a :: as, b :: bs => a == b && listPrefixOf as bs

/-- Boolean substring test on char lists (the needle is the first argument). -/
def listContains (needle : List Char) : List Char → Bool
  | [] => needle.isEmpty
  | c :: rest => listPrefixOf needle (c :: rest) || listContains needle rest

/-- Python `needle in hay` on strings. -/
def strContains (hay needle : String) : Bool :=
  listContains needle.toList hay.toList

/-- Python `s.startswith(pre)`. -/
def pyStartsWith (s pre : String) : Bool := listPrefixOf pre.toList s.toList

/-- Python `s.lower()` (ASCII range, which covers all inputs here). -/
def pyLower (s : String) : String := String.mk (s.toList.map Char.toLower)

/-- Python `s.isdigit()`: nonempty and every character a (ASCII) digit. -/
def pyIsDigit (s : String) : Bool :=
  !s.toList.isEmpty && s.toList.all Char.isDigit

/-! ### Numeric conversion -/

/-- Value of a digit string (used for Python `int(s)` after an `isdigit`
guard has established that `s` is a nonempty digit string). -/
def digitsToNat (ds : List Char) : Nat :=
  ds.foldl (fun n c => 10 * n + (c.toNat - 48)) 0

/-- Leading digit span of a char list. -/
def spanDigits (cs : List Char) : List Char × List Char :=
  (cs.takeWhile Char.isDigit, cs.dropWhile Char.isDigit)

/-- Python `float(s)` on a whitespace-free token: optional sign, decimal
digits with an optional single point, optional exponent. The special forms
`inf`/`nan` and digit-group underscores are not produced by any monitoring
tool output and are not modelled (they would be rejected here). Returns
`none` where Python raises `ValueError`. The value
`sign * digits / 10 ^ fracLen * 10 ^ exponent` is assembled as a single
`mkRat` over integer arithmetic. -/
def pyFloatCore (cs : List Char) : Option ℚ :=
  let sgn : Int × List Char :=
    match cs with
    | '+' :: r => (1, r)
    | '-' :: r => (-1, r)
    | _ => (1, cs)
  let ip := spanDigits sgn.2
  let frac : List Char × List Char :=
    match ip.2 with
    | '.' :: r => spanDigits r
    | _ => ([], ip.2)
  if ip.1.isEmpty && frac.1.isEmpty then none
  else
    let mantNum : Int := sgn.1 * (digitsToNat (ip.1 ++ frac.1) : Int)
    let mantDen : Nat := 10 ^ frac.1.length
    match frac.2 with
    | [] => some (mkRat mantNum mantDen)
    | e :: r =>
      if e == 'e' || e == 'E' then
        let es : Bool × List Char :=
          match r with
          | '+' :: r2 => (true, r2)
          | '-' :: r2 => (false, r2)
          | _ => (true, r)
        let ed := spanDigits es.2
        if ed.1.isEmpty || !ed.2.isEmpty then none
        else if es.1 then
          some (mkRat (mantNum * (10 : Int) ^ digitsToNat ed.1) mantDen)
        else
          some (mkRat mantNum (mantDen * 10 ^ digitsToNat ed.1))
      else none

/-- Python `float(s)` (see `pyFloatCore`). -/
def pyFloat (s : String) : Option ℚ := pyFloatCore s.toList

/-- Guard `s.replace('.', '').isdigit()` used by the source before calling
`float` on percentage tokens. -/
def floatGuard (s : String) : Bool :=
  pyIsDigit (String.mk (s.toList.filter (· != '.')))

/-- Source idiom `int(s) if s.isdigit() else 0` for integer columns; the
guard guarantees `int` cannot raise, so the result is total. -/
def coerceInt (s : String) : Int :=
  if pyIsDigit s then (digitsToNat s.toList : Int) else 0

/-- Source idiom `float(s) if s.replace('.', '').isdigit() else 0.0` for
percentage columns. A token that fails the guard coerces to `0.0`; a token
that passes the guard but still makes `float` raise (several decimal
points) yields `none`, which the enclosing `try`/`except` turns into a
skipped line. -/
def coerceFloat (s : String) : Option ℚ :=
  if floatGuard s then pyFloat s else some 0

/-! ### Sample records -/

/-- Sample dict built by the Linux-vmstat branch of `parse_vmstat_log`
(all 17 keys always present; `cpu_gu_pct` only for 18-column rows). -/
structure VmstatSample where
  procs_r : Int
  procs_b : Int
  memory_swpd_kb : Int
  memory_free_kb : Int
  memory_buff_kb : Int
  memory_cache_kb : Int
  swap_si_kb : Int
  swap_so_kb : Int
  io_bi_kb : Int
  io_bo_kb : Int
  system_in : Int
  system_cs : Int
  cpu_us_pct : ℚ
  cpu_sy_pct : ℚ
  cpu_id_pct : ℚ
  cpu_wa_pct : ℚ
  cpu_st_pct : ℚ
  cpu_gu_pct : Option ℚ
deriving DecidableEq

/-- Sample dict built by `parse_macos_top_log`: a Python dict whose keys are
populated block by block, so every field is optional (`none` = key absent). -/
structure TopSample where
  cpu_us_pct : Option ℚ
  cpu_sy_pct : Option ℚ
  cpu_id_pct : Option ℚ
  cpu_wa_pct : Option ℚ
  cpu_st_pct : Option ℚ
  memory_free_kb : Option Int
  memory_swpd_kb : Option Int
  memory_buff_kb : Option Int
  memory_cache_kb : Option Int
deriving DecidableEq

/-- The empty accumulator dict `{}` of `parse_macos_top_log`. -/
def emptyTop : TopSample := ⟨none, none, none, none, none, none, none, none, none⟩

/-- Sample dict built by `parse_macos_iostat_log` (all nine keys present). -/
structure IostatSample where
  cpu_us_pct : ℚ
  cpu_sy_pct : ℚ
  cpu_id_pct : ℚ
  cpu_wa_pct : ℚ
  cpu_st_pct : ℚ
  memory_free_kb : Int
  memory_swpd_kb : Int
  memory_buff_kb : Int
  memory_cache_kb : Int
deriving DecidableEq

/-- Sample dict built by `parse_macos_ps_csv`. -/
structure PsSample where
  pid : Int
  cpu_total_pct : ℚ
  timestamp_epoch_s : Int
deriving DecidableEq

/-- Sample dict built by `parse_pidstat_log` (text branch);
`memory_rss_kb` is set only when the heuristic RSS test fires. -/
structure PidstatSample where
  pid : Int
  cpu_usr_pct : ℚ
  cpu_system_pct : ℚ
  cpu_guest_pct : ℚ
  cpu_total_pct : ℚ
  memory_rss_kb : Option Int
deriving DecidableEq

/-! ### Linux vmstat parser (`parse_vmstat_log`, Linux branch) -/

/-- Lines 62-87 of the source: build one sample from the whitespace tokens
of a data row. Any percentage token whose guarded `float` call raises makes
the whole row fail (`none`), mirroring the `try`/`except ... continue` that
wraps the dict construction; integer columns cannot raise. -/
def parseVmstatParts (parts : List String) : Option VmstatSample :=
  if parts.length < 17 then none
  else
    match coerceFloat (parts.getD 12 ""), coerceFloat (parts.getD 13 ""),
          coerceFloat (parts.getD 14 ""),
          (if 15 < parts.length then coerceFloat (parts.getD 15 "") else some 0),
          (if 16 < parts.length then coerceFloat (parts.getD 16 "") else some 0),
          (if 17 < parts.length then (coerceFloat (parts.getD 17 "")).map some
           else some none) with
    | some us, some sy, some idl, some wa, some st, some gu =>
      some
        { procs_r := coerceInt (parts.getD 0 "")
          procs_b := coerceInt (parts.getD 1 "")
          memory_swpd_kb := coerceInt (parts.getD 2 "")
          memory_free_kb := coerceInt (parts.getD 3 "")
          memory_buff_kb := coerceInt (parts.getD 4 "")
          memory_cache_kb := coerceInt (parts.getD 5 "")
          swap_si_kb := coerceInt (parts.getD 6 "")
          swap_so_kb := coerceInt (parts.getD 7 "")
          io_bi_kb := coerceInt (parts.getD 8 "")
          io_bo_kb := coerceInt (parts.getD 9 "")
          system_in := coerceInt (parts.getD 10 "")
          system_cs := coerceInt (parts.getD 11 "")
          cpu_us_pct := us
          cpu_sy_pct := sy
          cpu_id_pct := idl
          cpu_wa_pct := wa
          cpu_st_pct := st
          cpu_gu_pct := gu }
    | _, _, _, _, _, _ => none

/-- One iteration of the Linux-vmstat line loop (source lines 45-87).
State: `(header_found, samples)`. -/
def vmstatLineStep (st : Bool × List VmstatSample) (rawLine : String) :
    Bool × List VmstatSample :=
  let line := pyStrip rawLine
  if line.isEmpty || pyStartsWith line "procs" || pyStartsWith line "r" then
    (st.1 || strContains line "procs" || pyStartsWith line "r", st.2)
  else if !st.1 then st
  else
    match parseVmstatParts (pySplit line) with
    | none => st
    | some s => (st.1, st.2 ++ [s])

/-- Linux-vmstat branch of `parse_vmstat_log` (the loop at lines 44-89). -/
def parseVmstatLines (lines : List String) : List VmstatSample :=
  (lines.foldl vmstatLineStep (false, [])).2

/-! ### Regex models for `parse_macos_top_log`

The two patterns searched by the source are
`(\d+\.?\d*)%\s+user.*?(\d+\.?\d*)%\s+sys.*?(\d+\.?\d*)%\s+idle` and
`(\d+)M\s+free`. In both, every greedy piece is followed by a character it
can never consume (`%`, `M`, or a letter after `\s+`), so maximal-munch
scanning without backtracking, restarting one character later on failure,
computes exactly `re.search` (leftmost match, lazy `.*?` taking the first
position at which the remainder matches; stripped lines contain no newline,
so `.` is unrestricted here). -/

/-- Match `\d+\.?\d*` at the head of the list (maximal munch), returning
the matched group and the rest. -/
def matchNumGroup (cs : List Char) : Option (List Char × List Char) :=
  let d1 := spanDigits cs
  if d1.1.isEmpty then none
  else
    match d1.2 with
    | '.' :: r2 =>
      let d2 := spanDigits r2
      some (d1.1 ++ '.' :: d2.1, d2.2)
    | _ => some (d1.1, d1.2)

/-- Match a literal char sequence at the head of the list. -/
def dropLit : List Char → List Char → Option (List Char)
  | [], cs => some cs
  | l :: ls, c :: cs => if l == c then dropLit ls cs else none
  | _ :: _, [] => none

/-- Match `\s+` at the head of the list (maximal munch). -/
def skipWsPlus (cs : List Char) : Option (List Char) :=
  match cs with
  | c :: rest => if isPySpace c then some (rest.dropWhile isPySpace) else none
  | [] => none

/-- Match `(\d+\.?\d*)%\s+word` at the head of the list. -/
def numPctWord (word : List Char) (cs : List Char) : Option (List Char × List Char) := do
  let g ← matchNumGroup cs
  let r2 ← dropLit ['%'] g.2
  let r3 ← skipWsPlus r2
  let r4 ← dropLit word r3
  some (g.1, r4)

/-- Lazy search `.*?(\d+\.?\d*)%\s+word`: first position at which the
component matches. -/
def searchNumPctWord (word : List Char) : List Char → Option (List Char × List Char)
  | [] => none
  | c :: rest =>
    match numPctWord word (c :: rest) with
    | some r => some r
    | none => searchNumPctWord word rest

/-- Full CPU-usage pattern anchored at the head of the list. -/
def cpuUsageAt (cs : List Char) : Option (ℚ × ℚ × ℚ) := do
  let g1 ← numPctWord ['u', 's', 'e', 'r'] cs
  let g2 ← searchNumPctWord ['s', 'y', 's'] g1.2
  let g3 ← searchNumPctWord ['i', 'd', 'l', 'e'] g2.2
  let v1 ← pyFloatCore g1.1
  let v2 ← pyFloatCore g2.1
  let v3 ← pyFloatCore g3.1
  some (v1, v2, v3)

/-- `re.search` of the CPU-usage pattern over a line. -/
def cpuUsageSearch : List Char → Option (ℚ × ℚ × ℚ)
  | [] => none
  | c :: rest =>
    match cpuUsageAt (c :: rest) with
    | some r => some r
    | none => cpuUsageSearch rest

/-- Pattern `(\d+)M\s+free` anchored at the head of the list, returning the
captured megabyte figure. -/
def physMemAt (cs : List Char) : Option Nat := do
  let d := spanDigits cs
  if d.1.isEmpty then none
  else do
    let r2 ← dropLit ['M'] d.2
    let r3 ← skipWsPlus r2
    let _ ← dropLit ['f', 'r', 'e', 'e'] r3
    some (digitsToNat d.1)

/-- `re.search` of the PhysMem free-memory pattern over a line. -/
def physMemSearch : List Char → Option Nat
  | [] => none
  | c :: rest =>
    match physMemAt (c :: rest) with
    | some r => some r
    | none => physMemSearch rest

/-! ### macOS top parser (`parse_macos_top_log`) -/

/-- One iteration of the top-parser line loop (source lines 98-142).
State: `(samples, current_sample)`. The flush test
`current_sample and "cpu_us_pct" in current_sample` is equivalent to key
presence alone, since a dict holding the key is nonempty. -/
def topStep (st : List TopSample × TopSample) (rawLine : String) :
    List TopSample × TopSample :=
  let line := pyStrip rawLine
  if line.isEmpty then
    if st.2.cpu_us_pct.isSome then (st.1 ++ [st.2], emptyTop) else st
  else if strContains line "CPU usage:" then
    match cpuUsageSearch line.toList with
    | some v =>
      (st.1,
        { st.2 with
          cpu_us_pct := some v.1
          cpu_sy_pct := some v.2.1
          cpu_id_pct := some v.2.2
          cpu_wa_pct := some 0
          cpu_st_pct := some 0 })
    | none => st
  else if strContains line "PhysMem:" then
    match physMemSearch line.toList with
    | some mb =>
      (st.1,
        { st.2 with
          memory_free_kb := some ((mb : Int) * 1024)
          memory_swpd_kb := some 0
          memory_buff_kb := some 0
          memory_cache_kb := some 0 })
    | none => st
  else st

/-- Body of `parse_macos_top_log` over the lines of an open file, with the
final end-of-file flush (source lines 94-148). -/
def macosTopCore (lines : List String) : List TopSample :=
  let st := lines.foldl topStep ([], emptyTop)
  if st.2.cpu_us_pct.isSome then st.1 ++ [st.2] else st.1

/-- `parse_macos_top_log`: the function performs no existence check, so a
missing file makes its `open` call raise `FileNotFoundError`. -/
def parse_macos_top_log (file : Option (List String)) :
    Except String (List TopSample) :=
  match file with
  | none => .error "FileNotFoundError"
  | some lines => .ok (macosTopCore lines)

/-! ### macOS iostat parser (`parse_macos_iostat_log`) -/

/-- One iteration of the iostat line loop (source lines 164-211).
State: `(header_found, column_header_found, samples)`. -/
def iostatStep (st : Bool × Bool × List IostatSample) (rawLine : String) :
    Bool × Bool × List IostatSample :=
  let line := pyStrip rawLine
  if line.isEmpty then st
  else if strContains (pyLower line) "cpu" && strContains (pyLower line) "load average" then
    (true, st.2)
  else if !st.1 then st
  else if (strContains line "KB/t" || strContains line "tps") &&
          (strContains line "us" || strContains line "sy") then
    (st.1, true, st.2.2)
  else if !st.2.1 then st
  else
    let parts := pySplit line
    if parts.length < 6 then st
    else
      match pyFloat (parts.getD 3 ""), pyFloat (parts.getD 4 ""),
            pyFloat (parts.getD 5 "") with
      | some us, some sy, some idl =>
        (st.1, st.2.1, st.2.2 ++ [⟨us, sy, idl, 0, 0, 0, 0, 0, 0⟩])
      | _, _, _ => st

/-- Body of `parse_macos_iostat_log` over the lines of an open file. -/
def macosIostatCore (lines : List String) : List IostatSample :=
  (lines.foldl iostatStep (false, false, [])).2.2

/-- `parse_macos_iostat_log`: like the top parser, no existence check, so a
missing file raises. -/
def parse_macos_iostat_log (file : Option (List String)) :
    Except String (List IostatSample) :=
  match file with
  | none => .error "FileNotFoundError"
  | some lines => .ok (macosIostatCore lines)

/-! ### macOS ps CSV parser (`parse_macos_ps_csv`) -/

/-- Helper for `csvRows`: splits one line on commas, keeping empty fields. -/
def splitCommaChars : List Char → List Char → List String
  | [], acc => [String.mk acc.reverse]
  | c :: cs, acc =>
    if c == ',' then String.mk acc.reverse :: splitCommaChars cs []
    else splitCommaChars cs (c :: acc)

/-- Rows produced by `csv.reader` over the file: one field list per line
(an empty line yields an empty row). Quoting is not modelled; the ps CSV
captures handled by this tool are unquoted. -/
def csvRows (lines : List String) : List (List String) :=
  lines.map (fun l => if l.isEmpty then [] else splitCommaChars l.toList [])

/-- Python `{name: idx for idx, name in enumerate(header)}.get(name)`:
the index of the last occurrence of `name`, since later duplicates
overwrite earlier ones. -/
def headerIdx (header : List String) (name : String) : Option Nat :=
  (List.range header.length).foldl
    (fun acc i => if header.getD i "" == name then some i else acc) none

/-- Truncation of `int(float(x))`: toward zero, as Python truncates
(`Int.tdiv` is T-division; the `/` of `Int` floors instead). -/
def ratTrunc (q : ℚ) : Int := q.num.tdiv (q.den : Int)

/-- Row loop body of `parse_macos_ps_csv` (source lines 244-262); `none`
models a row skipped by the length check or by a raised `ValueError`. -/
def psRowSample (tsIdx cpuIdx pidIdx : Nat) (row : List String) : Option PsSample :=
  if row.length ≤ max tsIdx (max cpuIdx pidIdx) then none
  else
    let tsRaw := pyStrip (row.getD tsIdx "")
    let cpuRaw := pyStrip (row.getD cpuIdx "")
    let pidRaw := pyStrip (row.getD pidIdx "")
    match (if cpuRaw.isEmpty then some 0
           else pyFloat (String.mk (cpuRaw.toList.map (fun c => if c == ',' then '.' else c)))),
          (if tsRaw.isEmpty then some 0 else (pyFloat tsRaw).map ratTrunc) with
    | some cpuVal, some tsVal =>
      some
        { pid := if pyIsDigit pidRaw then (digitsToNat pidRaw.toList : Int) else 0
          cpu_total_pct := cpuVal
          timestamp_epoch_s := tsVal }
    | _, _ => none

/-- `parse_macos_ps_csv` (source lines 216-264): existence check, header
sniff over the first row, alias-chain column lookup, then the row loop. -/
def parse_macos_ps_csv (file : Option (List String)) : List PsSample :=
  match file with
  | none => []
  | some lines =>
    match csvRows lines with
    | [] => []
    | row0 :: restRows =>
      let header := row0.map (fun c => pyLower (pyStrip c))
      let hasHeader := header.any (fun c => strContains c "cpu") ||
                       header.any (fun c => strContains c "timestamp")
      let tsIdx := if hasHeader then
          (headerIdx header "timestamp_epoch_s").getD
            ((headerIdx header "timestamp").getD 0)
        else 0
      let cpuIdx := if hasHeader then
          (headerIdx header "cpu_pct").getD
            ((headerIdx header "%cpu").getD ((headerIdx header "cpu").getD 1))
        else 1
      let pidIdx := if hasHeader then (headerIdx header "pid").getD 2 else 2
      let dataRows := if hasHeader then restRows else row0 :: restRows
      dataRows.foldl
        (fun acc row =>
          match psRowSample tsIdx cpuIdx pidIdx row with
          | some s => acc ++ [s]
          | none => acc) []

/-! ### pidstat parser (`parse_pidstat_log`) -/

/-- Lines 309-320 of the source: build one pidstat sample from the
whitespace tokens of a retained data row (at least 8 tokens). -/
def parsePidstatParts (parts : List String) : Option PidstatSample :=
  match coerceFloat (parts.getD 2 ""), coerceFloat (parts.getD 3 ""),
        (if 4 < parts.length then coerceFloat (parts.getD 4 "") else some 0),
        (if 5 < parts.length then coerceFloat (parts.getD 5 "") else some 0) with
  | some usr, some sys, some guest, some total =>
    some
      { pid := coerceInt (parts.getD 1 "")
        cpu_usr_pct := usr
        cpu_system_pct := sys
        cpu_guest_pct := guest
        cpu_total_pct := total
        memory_rss_kb :=
          if 6 < parts.length && pyIsDigit (parts.getD 6 "") &&
             decide (1000 < (digitsToNat (parts.getD 6 "").toList : Int)) then
            some (digitsToNat (parts.getD 6 "").toList : Int)
          else none }
  | _, _, _, _ => none

/-- One iteration of the pidstat text line loop (source lines 285-323).
State: `(header_found, samples)`. -/
def pidstatStep (processName : String) (st : Bool × List PidstatSample)
    (rawLine : String) : Bool × List PidstatSample :=
  let line := pyStrip rawLine
  if line.isEmpty then st
  else if strContains line "PID" && strContains line "CPU" then (true, st.2)
  else if !st.1 then st
  else if !strContains (pyLower line) (pyLower processName) then st
  else
    let parts := pySplit line
    if parts.length < 8 then st
    else
      match parsePidstatParts parts with
      | some s => (st.1, st.2 ++ [s])
      | none => st

/-- Result of `parse_pidstat_log`: a Python list of dicts whose key set
depends on which branch produced it; the constructor records the branch. -/
inductive PidstatResult where
  | ps : List PsSample → PidstatResult
  | pidstat : List PidstatSample → PidstatResult
deriving DecidableEq

/-- `parse_pidstat_log` (source lines 267-325): existence check, comma/PID
CSV sniff over the first line, then the text state machine. -/
def parse_pidstat_log (file : Option (List String)) (processName : String) :
    PidstatResult :=
  match file with
  | none => .pidstat []
  | some lines =>
    let firstLine := pyStrip (lines.headD "")
    if strContains firstLine "," && !strContains firstLine "PID" &&
       !strContains firstLine "Average" then
      .ps (parse_macos_ps_csv (some lines))
    else
      .pidstat ((lines.foldl (pidstatStep processName) (false, [])).2)

/-! ### vmstat dispatch (`parse_vmstat_log`, sniffer at lines 21-38) -/

/-- Result of `parse_vmstat_log`: a Python list of dicts whose key set
depends on which parser the sniffer dispatched to; the constructor records
the parser. -/
inductive VmstatResult where
  | top : List TopSample → VmstatResult
  | iostat : List IostatSample → VmstatResult
  | vmstat : List VmstatSample → VmstatResult
deriving DecidableEq

/-- Sniffer line test for macOS top output (source line 27). -/
def sniffTopLine (l : String) : Bool :=
  strContains l "CPU usage:" || strContains l "PhysMem:"

/-- Sniffer line test for macOS iostat output (source lines 29-33). -/
def sniffIostatLine (l : String) : Bool :=
  (strContains (pyLower l) "cpu" && strContains (pyLower l) "load average") ||
  (strContains l "KB/t" && (strContains l "us" || strContains l "sy"))

/-- First five lines read by the sniffer; `readline` past end of file
returns `""`, which satisfies no sniffer predicate, so the padding can be
dropped. -/
def sniffLines (lines : List String) : List String :=
  (lines.take 5).map pyStrip

/-- `parse_vmstat_log` (source lines 14-89): existence check, format sniff
over the first five lines (macOS top takes priority over iostat), then
dispatch; by the time a macOS parser is invoked the file exists, so its
unchecked `open` cannot raise. -/
def parse_vmstat_log (file : Option (List String)) : VmstatResult :=
  match file with
  | none => .vmstat []
  | some lines =>
    if (sniffLines lines).any sniffTopLine then .top (macosTopCore lines)
    else if (sniffLines lines).any sniffIostatLine then
      .iostat (macosIostatCore lines)
    else .vmstat (parseVmstatLines lines)

/-! ### Summary aggregator (`main`, source lines 1554-1571) -/

/-- The dict stored under `"vmstat_summary"`. -/
structure VmstatSummary where
  sample_count : Nat
  avg_cpu_us_pct : ℚ
  avg_cpu_sy_pct : ℚ
  avg_cpu_id_pct : ℚ
  peak_memory_free_kb : Int
deriving DecidableEq

/-- The dict stored under `"pidstat_summary"`. -/
structure PidstatSummary where
  sample_count : Nat
  avg_cpu_total_pct : ℚ
  peak_cpu_total_pct : ℚ
deriving DecidableEq

/-- Summary over vmstat samples (source lines 1555-1563): guarded by
`if result["vmstat"]:`, so an empty list produces no record at all. -/
def vmstat_summary : List VmstatSample → Option VmstatSummary
  | [] => none
  | s :: rest =>
    some
      { sample_count := (s :: rest).length
        avg_cpu_us_pct := ((s :: rest).map VmstatSample.cpu_us_pct).sum /
          ((s :: rest).length : ℚ)
        avg_cpu_sy_pct := ((s :: rest).map VmstatSample.cpu_sy_pct).sum /
          ((s :: rest).length : ℚ)
        avg_cpu_id_pct := ((s :: rest).map VmstatSample.cpu_id_pct).sum /
          ((s :: rest).length : ℚ)
        peak_memory_free_kb :=
          rest.foldl (fun m t => min m t.memory_free_kb) s.memory_free_kb }

/-- Summary over pidstat samples (source lines 1565-1571): guarded by
`if result["pidstat"]:`, so an empty list produces no record at all. -/
def pidstat_summary : List PidstatSample → Option PidstatSummary
  | [] => none
  | s :: rest =>
    some
      { sample_count := (s :: rest).length
        avg_cpu_total_pct := ((s :: rest).map PidstatSample.cpu_total_pct).sum /
          ((s :: rest).length : ℚ)
        peak_cpu_total_pct :=
          rest.foldl (fun m t => max m t.cpu_total_pct) s.cpu_total_pct }

/-! ### Auxiliary predicates used in statements -/

/-- All five CPU keys are present in a top sample, with the wait and steal
percentages pinned to zero. -/
def topSampleCpuComplete (s : TopSample) : Prop :=
  s.cpu_us_pct.isSome = true ∧ s.cpu_sy_pct.isSome = true ∧
  s.cpu_id_pct.isSome = true ∧ s.cpu_wa_pct = some 0 ∧ s.cpu_st_pct = some 0

/-- None of the four memory keys is present in a top sample. -/
def topSampleMemAbsent (s : TopSample) : Prop :=
  s.memory_free_kb = none ∧ s.memory_swpd_kb = none ∧
  s.memory_buff_kb = none ∧ s.memory_cache_kb = none

/-! ### Helper lemmas -/

theorem coerceFloat_guard_true {s : String} (h : floatGuard s = true) :
    coerceFloat s = pyFloat s := by
  simp [coerceFloat, h]

theorem coerceFloat_guard_false {s : String} (h : floatGuard s = false) :
    coerceFloat s = some 0 := by
  simp [coerceFloat, h]

theorem coerceInt_not_digit {s : String} (h : pyIsDigit s = false) :
    coerceInt s = 0 := by
  unfold coerceInt
  rw [h]
  simp

theorem foldl_min_le_start (l : List Int) : ∀ a : Int, l.foldl min a ≤ a := by
  induction l with
  | nil => intro a; exact le_refl a
  | cons x xs ih => intro a; exact le_trans (ih (min a x)) (min_le_left a x)

theorem foldl_min_le_mem (l : List Int) : ∀ a : Int, ∀ x ∈ l, l.foldl min a ≤ x := by
  induction l with
  | nil => intro a x hx; cases hx
  | cons y ys ih =>
    intro a x hx
    rcases List.mem_cons.mp hx with h | h
    · subst h
      exact le_trans (foldl_min_le_start ys (min a x)) (min_le_right a x)
    · exact ih (min a y) x h

theorem foldl_min_attained (l : List Int) :
    ∀ a : Int, l.foldl min a = a ∨ l.foldl min a ∈ l := by
  induction l with
  | nil => intro a; exact Or.inl rfl
  | cons y ys ih =>
    intro a
    rcases ih (min a y) with h | h
    · rcases le_total a y with hay | hya
      · exact Or.inl (by rw [List.foldl_cons, h, min_eq_left hay])
      · exact Or.inr (by rw [List.foldl_cons, h, min_eq_right hya]; exact List.mem_cons_self y ys)
    · exact Or.inr (List.mem_cons_of_mem y h)

/-! ### Claim C1 -/

/-- C1, counterexample: the macOS top and iostat parsers perform no
existence check, so invoking either on a missing path raises
`FileNotFoundError` instead of returning an empty sequence. -/
theorem macos_parsers_missing_file_raise :
    parse_macos_top_log none = .error "FileNotFoundError" ∧
    parse_macos_iostat_log none = .error "FileNotFoundError" :=
  ⟨rfl, rfl⟩

/-- C1 (amended): the vmstat, pidstat and ps-CSV parsers return an empty
sequence on a missing file thanks to their `exists()` guard, and all five
parsers return an empty sequence with no exception on an empty file; the
top and iostat parsers lack the guard and raise on a missing path, but are
only reached through the vmstat dispatcher after its existence check. -/
theorem parsers_empty_and_missing_input :
    parse_vmstat_log none = .vmstat [] ∧
    parse_pidstat_log none "ServerLoadTest" = .pidstat [] ∧
    parse_macos_ps_csv none = [] ∧
    parse_vmstat_log (some []) = .vmstat [] ∧
    parse_macos_top_log (some []) = .ok [] ∧
    parse_macos_iostat_log (some []) = .ok [] ∧
    parse_macos_ps_csv (some []) = [] ∧
    parse_pidstat_log (some []) "ServerLoadTest" = .pidstat [] :=
  ⟨rfl, rfl, rfl, rfl, rfl, rfl, rfl, rfl⟩

/-! ### Claim C4 -/

/-- C4: after a recognised header line, the documented 17-token vmstat data
line yields exactly one sample with `procs_r = 2`,
`memory_free_kb = 102400`, `cpu_us_pct = 15.0`, `cpu_sy_pct = 5.0`,
`cpu_id_pct = 78.0`, `cpu_wa_pct = 2.0`, `cpu_st_pct = 0.0` (and the
remaining columns mapped in order, with no guest-CPU key). -/
theorem vmstat_single_line_parse :
    parse_vmstat_log (some
      ["procs -----------memory---------- ---swap-- -----io---- -system-- -------cpu-------",
       "2 0 0 102400 20480 512000 0 0 5 10 100 200 15.0 5.0 78.0 2.0 0.0"]) =
    .vmstat [{ procs_r := 2, procs_b := 0, memory_swpd_kb := 0,
               memory_free_kb := 102400, memory_buff_kb := 20480,
               memory_cache_kb := 512000, swap_si_kb := 0, swap_so_kb := 0,
               io_bi_kb := 5, io_bo_kb := 10, system_in := 100,
               system_cs := 200, cpu_us_pct := 15, cpu_sy_pct := 5,
               cpu_id_pct := 78, cpu_wa_pct := 2, cpu_st_pct := 0,
               cpu_gu_pct := none }] := by
  decide

/-! ### Claim C8 -/

/-- C8: the pidstat summary aggregator produces no record at all over an
empty sequence (hence never divides by zero), and over the two samples with
`cpu_total_pct` 10 and 30 it reports `avg_cpu_total_pct = 20.0`,
`peak_cpu_total_pct = 30.0` (the maximum) and `sample_count = 2`. -/
theorem pidstat_summary_empty_and_two_samples :
    pidstat_summary [] = none ∧
    pidstat_summary
      [{ pid := 101, cpu_usr_pct := 0, cpu_system_pct := 0,
         cpu_guest_pct := 0, cpu_total_pct := 10, memory_rss_kb := none },
       { pid := 102, cpu_usr_pct := 0, cpu_system_pct := 0,
         cpu_guest_pct := 0, cpu_total_pct := 30, memory_rss_kb := none }] =
      some { sample_count := 2, avg_cpu_total_pct := 20,
             peak_cpu_total_pct := 30 } := by
  refine ⟨rfl, ?_⟩
  simp only [pidstat_summary, List.map_cons, List.map_nil, List.sum_cons,
    List.sum_nil, List.length_cons, List.length_nil, List.foldl]
  norm_num

/-! ### Claim C2 -/

/-- C2, counterexample: the token `1.2.3` at a percentage position is not
parseable as a number, yet it passes the guard `replace('.', '').isdigit()`;
the unguarded `float` call then raises `ValueError`, which the line-level
handler turns into dropping the whole 17-token line — so an unparsable
numeric token is not always coerced to `0.0`, and the line does not always
yield a sample. -/
theorem vmstat_invalid_token_drops_line :
    parse_vmstat_log (some
      ["procs",
       "2 0 0 102400 20480 512000 0 0 5 10 100 200 1.2.3 5.0 78.0 2.0 0.0"]) =
      .vmstat [] ∧
    (pySplit "2 0 0 102400 20480 512000 0 0 5 10 100 200 1.2.3 5.0 78.0 2.0 0.0").length = 17 ∧
    floatGuard "1.2.3" = true ∧ pyFloat "1.2.3" = none := by
  exact ⟨by decide, by decide, by decide, by decide⟩

/-- C2 (amended): a numeric token that fails its digit-check guard is
coerced to `0` (integer columns) or `0.0` (percentage columns) and the
17-token line still yields a sample, with no exception propagating; but a
percentage token that passes the guard while still being invalid for
`float` (several decimal points) makes the whole line be dropped. The
hypothesis therefore asks parseability only of the guard-passing tokens at
the columns the code actually float-parses: 12-16, and 17 when an 18th
token is present. Integer columns are coerced unconditionally and can
never raise. -/
theorem vmstat_unparsable_token_coercion (parts : List String)
    (hlen : 17 ≤ parts.length)
    (hok : ∀ i, 12 ≤ i → i < parts.length → i < 18 →
      (coerceFloat (parts.getD i "")).isSome = true) :
    (parseVmstatParts parts).isSome = true ∧
    ∀ s, parseVmstatParts parts = some s →
      (pyIsDigit (parts.getD 0 "") = false → s.procs_r = 0) ∧
      (pyIsDigit (parts.getD 1 "") = false → s.procs_b = 0) ∧
      (pyIsDigit (parts.getD 2 "") = false → s.memory_swpd_kb = 0) ∧
      (pyIsDigit (parts.getD 3 "") = false → s.memory_free_kb = 0) ∧
      (pyIsDigit (parts.getD 4 "") = false → s.memory_buff_kb = 0) ∧
      (pyIsDigit (parts.getD 5 "") = false → s.memory_cache_kb = 0) ∧
      (pyIsDigit (parts.getD 6 "") = false → s.swap_si_kb = 0) ∧
      (pyIsDigit (parts.getD 7 "") = false → s.swap_so_kb = 0) ∧
      (pyIsDigit (parts.getD 8 "") = false → s.io_bi_kb = 0) ∧
      (pyIsDigit (parts.getD 9 "") = false → s.io_bo_kb = 0) ∧
      (pyIsDigit (parts.getD 10 "") = false → s.system_in = 0) ∧
      (pyIsDigit (parts.getD 11 "") = false → s.system_cs = 0) ∧
      (floatGuard (parts.getD 12 "") = false → s.cpu_us_pct = 0) ∧
      (floatGuard (parts.getD 13 "") = false → s.cpu_sy_pct = 0) ∧
      (floatGuard (parts.getD 14 "") = false → s.cpu_id_pct = 0) ∧
      (floatGuard (parts.getD 15 "") = false → s.cpu_wa_pct = 0) ∧
      (floatGuard (parts.getD 16 "") = false → s.cpu_st_pct = 0) ∧
      (17 < parts.length → floatGuard (parts.getD 17 "") = false →
        s.cpu_gu_pct = some 0) := by
  obtain ⟨v12, h12⟩ :=
    Option.isSome_iff_exists.mp (hok 12 (by omega) (by omega) (by omega))
  obtain ⟨v13, h13⟩ :=
    Option.isSome_iff_exists.mp (hok 13 (by omega) (by omega) (by omega))
  obtain ⟨v14, h14⟩ :=
    Option.isSome_iff_exists.mp (hok 14 (by omega) (by omega) (by omega))
  obtain ⟨v15, h15⟩ :=
    Option.isSome_iff_exists.mp (hok 15 (by omega) (by omega) (by omega))
  obtain ⟨v16, h16⟩ :=
    Option.isSome_iff_exists.mp (hok 16 (by omega) (by omega) (by omega))
  have hgu : ∃ g6 : Option ℚ,
      (if 17 < parts.length then (coerceFloat (parts.getD 17 "")).map some
       else some none) = some g6 ∧
      (17 < parts.length → floatGuard (parts.getD 17 "") = false →
        g6 = some 0) := by
    by_cases h17 : 17 < parts.length
    · obtain ⟨v17, hv⟩ :=
        Option.isSome_iff_exists.mp (hok 17 (by omega) h17 (by omega))
      refine ⟨some v17, by rw [if_pos h17, hv]; rfl, fun _ hg => ?_⟩
      have h := hv
      rw [coerceFloat_guard_false hg] at h
      exact h.symm
    · exact ⟨none, by rw [if_neg h17], fun hc _ => absurd hc h17⟩
  obtain ⟨g6, h6, h6gu⟩ := hgu
  have hmain : parseVmstatParts parts = some
      { procs_r := coerceInt (parts.getD 0 "")
        procs_b := coerceInt (parts.getD 1 "")
        memory_swpd_kb := coerceInt (parts.getD 2 "")
        memory_free_kb := coerceInt (parts.getD 3 "")
        memory_buff_kb := coerceInt (parts.getD 4 "")
        memory_cache_kb := coerceInt (parts.getD 5 "")
        swap_si_kb := coerceInt (parts.getD 6 "")
        swap_so_kb := coerceInt (parts.getD 7 "")
        io_bi_kb := coerceInt (parts.getD 8 "")
        io_bo_kb := coerceInt (parts.getD 9 "")
        system_in := coerceInt (parts.getD 10 "")
        system_cs := coerceInt (parts.getD 11 "")
        cpu_us_pct := v12
        cpu_sy_pct := v13
        cpu_id_pct := v14
        cpu_wa_pct := v15
        cpu_st_pct := v16
        cpu_gu_pct := g6 } := by
    unfold parseVmstatParts
    rw [if_neg (by omega), if_pos (by omega : 15 < parts.length),
      if_pos (by omega : 16 < parts.length), h12, h13, h14, h15, h16, h6]
  refine ⟨by rw [hmain]; rfl, ?_⟩
  intro s hs
  rw [hmain] at hs
  injection hs with hs
  subst hs
  refine ⟨fun hg => coerceInt_not_digit hg, fun hg => coerceInt_not_digit hg,
    fun hg => coerceInt_not_digit hg, fun hg => coerceInt_not_digit hg,
    fun hg => coerceInt_not_digit hg, fun hg => coerceInt_not_digit hg,
    fun hg => coerceInt_not_digit hg, fun hg => coerceInt_not_digit hg,
    fun hg => coerceInt_not_digit hg, fun hg => coerceInt_not_digit hg,
    fun hg => coerceInt_not_digit hg, fun hg => coerceInt_not_digit hg,
    ?_, ?_, ?_, ?_, ?_, h6gu⟩
  · intro hg
    have h := h12
    rw [coerceFloat_guard_false hg] at h
    exact (Option.some.inj h).symm
  · intro hg
    have h := h13
    rw [coerceFloat_guard_false hg] at h
    exact (Option.some.inj h).symm
  · intro hg
    have h := h14
    rw [coerceFloat_guard_false hg] at h
    exact (Option.some.inj h).symm
  · intro hg
    have h := h15
    rw [coerceFloat_guard_false hg] at h
    exact (Option.some.inj h).symm
  · intro hg
    have h := h16
    rw [coerceFloat_guard_false hg] at h
    exact (Option.some.inj h).symm

/-- Witness for `vmstat_unparsable_token_coercion`: a concrete 17-token
line with the unparsable token `1.2.3` in the integer column `r` and `abc`
in the user-CPU percentage column still yields a sample. -/
theorem vmstat_unparsable_token_coercion_witness :
    (parseVmstatParts
      (pySplit "1.2.3 0 0 102400 20480 512000 0 0 5 10 100 200 abc 5.0 78.0 2.0 0.0")).isSome = true :=
  (vmstat_unparsable_token_coercion _ (by decide) (by decide)).1

/-! ### Claim C5 -/

/-- C5: a data line reached after the header that splits into fewer than 17
whitespace tokens yields no sample; a line of at least 17 well-formed
numeric tokens yields a sample whose fields are taken from the tokens in
the fixed column order `r b swpd free buff cache si so bi bo in cs us sy id
wa st`, with an 18th token mapped to `cpu_gu_pct` (and no guest key for a
17-token line). -/
theorem vmstat_data_line_field_order (parts : List String) :
    (parts.length < 17 → parseVmstatParts parts = none) ∧
    ((∀ i, i < 12 → pyIsDigit (parts.getD i "") = true) →
     (∀ i, 12 ≤ i → i < parts.length → i < 18 →
        floatGuard (parts.getD i "") = true ∧
        (pyFloat (parts.getD i "")).isSome = true) →
     17 ≤ parts.length →
     (parseVmstatParts parts).isSome = true ∧
     ∀ s, parseVmstatParts parts = some s →
       s.procs_r = (digitsToNat (parts.getD 0 "").toList : Int) ∧
       s.procs_b = (digitsToNat (parts.getD 1 "").toList : Int) ∧
       s.memory_swpd_kb = (digitsToNat (parts.getD 2 "").toList : Int) ∧
       s.memory_free_kb = (digitsToNat (parts.getD 3 "").toList : Int) ∧
       s.memory_buff_kb = (digitsToNat (parts.getD 4 "").toList : Int) ∧
       s.memory_cache_kb = (digitsToNat (parts.getD 5 "").toList : Int) ∧
       s.swap_si_kb = (digitsToNat (parts.getD 6 "").toList : Int) ∧
       s.swap_so_kb = (digitsToNat (parts.getD 7 "").toList : Int) ∧
       s.io_bi_kb = (digitsToNat (parts.getD 8 "").toList : Int) ∧
       s.io_bo_kb = (digitsToNat (parts.getD 9 "").toList : Int) ∧
       s.system_in = (digitsToNat (parts.getD 10 "").toList : Int) ∧
       s.system_cs = (digitsToNat (parts.getD 11 "").toList : Int) ∧
       pyFloat (parts.getD 12 "") = some s.cpu_us_pct ∧
       pyFloat (parts.getD 13 "") = some s.cpu_sy_pct ∧
       pyFloat (parts.getD 14 "") = some s.cpu_id_pct ∧
       pyFloat (parts.getD 15 "") = some s.cpu_wa_pct ∧
       pyFloat (parts.getD 16 "") = some s.cpu_st_pct ∧
       (parts.length = 17 → s.cpu_gu_pct = none) ∧
       (17 < parts.length → s.cpu_gu_pct = pyFloat (parts.getD 17 ""))) := by
  constructor
  · intro h
    unfold parseVmstatParts
    rw [if_pos h]
  · intro hint hflt hlen
    obtain ⟨v12, h12⟩ :=
      Option.isSome_iff_exists.mp (hflt 12 (by omega) (by omega) (by omega)).2
    obtain ⟨v13, h13⟩ :=
      Option.isSome_iff_exists.mp (hflt 13 (by omega) (by omega) (by omega)).2
    obtain ⟨v14, h14⟩ :=
      Option.isSome_iff_exists.mp (hflt 14 (by omega) (by omega) (by omega)).2
    obtain ⟨v15, h15⟩ :=
      Option.isSome_iff_exists.mp (hflt 15 (by omega) (by omega) (by omega)).2
    obtain ⟨v16, h16⟩ :=
      Option.isSome_iff_exists.mp (hflt 16 (by omega) (by omega) (by omega)).2
    have h12c : coerceFloat (parts.getD 12 "") = some v12 := by
      rw [coerceFloat_guard_true (hflt 12 (by omega) (by omega) (by omega)).1]
      exact h12
    have h13c : coerceFloat (parts.getD 13 "") = some v13 := by
      rw [coerceFloat_guard_true (hflt 13 (by omega) (by omega) (by omega)).1]
      exact h13
    have h14c : coerceFloat (parts.getD 14 "") = some v14 := by
      rw [coerceFloat_guard_true (hflt 14 (by omega) (by omega) (by omega)).1]
      exact h14
    have h15c : coerceFloat (parts.getD 15 "") = some v15 := by
      rw [coerceFloat_guard_true (hflt 15 (by omega) (by omega) (by omega)).1]
      exact h15
    have h16c : coerceFloat (parts.getD 16 "") = some v16 := by
      rw [coerceFloat_guard_true (hflt 16 (by omega) (by omega) (by omega)).1]
      exact h16
    have hgu : ∃ g6 : Option ℚ,
        (if 17 < parts.length then (coerceFloat (parts.getD 17 "")).map some
         else some none) = some g6 ∧
        (parts.length = 17 → g6 = none) ∧
        (17 < parts.length → g6 = pyFloat (parts.getD 17 "")) := by
      by_cases h17 : 17 < parts.length
      · have hg := hflt 17 (by omega) h17 (by omega)
        obtain ⟨v17, hv⟩ := Option.isSome_iff_exists.mp hg.2
        refine ⟨some v17, ?_, fun he => by omega, fun _ => by rw [hv]⟩
        rw [if_pos h17, coerceFloat_guard_true hg.1, hv]
        rfl
      · exact ⟨none, by rw [if_neg h17], fun _ => rfl, fun hc => absurd hc h17⟩
    obtain ⟨g6, h6, h6none, h6some⟩ := hgu
    have hmain : parseVmstatParts parts = some
        { procs_r := coerceInt (parts.getD 0 "")
          procs_b := coerceInt (parts.getD 1 "")
          memory_swpd_kb := coerceInt (parts.getD 2 "")
          memory_free_kb := coerceInt (parts.getD 3 "")
          memory_buff_kb := coerceInt (parts.getD 4 "")
          memory_cache_kb := coerceInt (parts.getD 5 "")
          swap_si_kb := coerceInt (parts.getD 6 "")
          swap_so_kb := coerceInt (parts.getD 7 "")
          io_bi_kb := coerceInt (parts.getD 8 "")
          io_bo_kb := coerceInt (parts.getD 9 "")
          system_in := coerceInt (parts.getD 10 "")
          system_cs := coerceInt (parts.getD 11 "")
          cpu_us_pct := v12
          cpu_sy_pct := v13
          cpu_id_pct := v14
          cpu_wa_pct := v15
          cpu_st_pct := v16
          cpu_gu_pct := g6 } := by
      unfold parseVmstatParts
      rw [if_neg (by omega), if_pos (by omega : 15 < parts.length),
        if_pos (by omega : 16 < parts.length), h12c, h13c, h14c, h15c, h16c, h6]
    refine ⟨by rw [hmain]; rfl, ?_⟩
    intro s hs
    rw [hmain] at hs
    injection hs with hs
    subst hs
    have hci : ∀ i, i < 12 → coerceInt (parts.getD i "") =
        (digitsToNat (parts.getD i "").toList : Int) := by
      intro i hi
      unfold coerceInt
      rw [hint i hi]
      simp
    refine ⟨hci 0 (by omega), hci 1 (by omega), hci 2 (by omega),
      hci 3 (by omega), hci 4 (by omega), hci 5 (by omega), hci 6 (by omega),
      hci 7 (by omega), hci 8 (by omega), hci 9 (by omega), hci 10 (by omega),
      hci 11 (by omega), h12, h13, h14, h15, h16, h6none, h6some⟩

/-- Witness for `vmstat_data_line_field_order`: a concrete 18-token data
line yields a sample (its fields characterised by the theorem, including
the guest-CPU column). -/
theorem vmstat_data_line_field_order_witness :
    (parseVmstatParts
      (pySplit "3 1 0 204800 1024 2048 0 0 7 9 50 60 10.0 4.0 80.0 5.0 1.0 0.5")).isSome = true :=
  ((vmstat_data_line_field_order _).2 (by decide) (by decide) (by decide)).1

/-! ### Claim C3 -/

/-- C3: for a non-empty vmstat sample sequence the summary record exists
and contains the sample count, the arithmetic means (sum divided by count)
of `cpu_us_pct`, `cpu_sy_pct` and `cpu_id_pct`, and
`peak_memory_free_kb` equal to the minimum observed `memory_free_kb`
(it is attained by some sample and bounds every sample from below). -/
theorem vmstat_summary_stats (samples : List VmstatSample) :
    (samples ≠ [] → (vmstat_summary samples).isSome = true) ∧
    ∀ rec, vmstat_summary samples = some rec →
      rec.sample_count = samples.length ∧
      rec.avg_cpu_us_pct =
        (samples.map VmstatSample.cpu_us_pct).sum / (samples.length : ℚ) ∧
      rec.avg_cpu_sy_pct =
        (samples.map VmstatSample.cpu_sy_pct).sum / (samples.length : ℚ) ∧
      rec.avg_cpu_id_pct =
        (samples.map VmstatSample.cpu_id_pct).sum / (samples.length : ℚ) ∧
      rec.peak_memory_free_kb ∈ samples.map VmstatSample.memory_free_kb ∧
      ∀ t ∈ samples, rec.peak_memory_free_kb ≤ t.memory_free_kb := by
  cases samples with
  | nil =>
    refine ⟨fun h => absurd rfl h, fun rec h => ?_⟩
    simp [vmstat_summary] at h
  | cons s rest =>
    refine ⟨fun _ => rfl, fun rec h => ?_⟩
    have hrec : rec =
        { sample_count := (s :: rest).length
          avg_cpu_us_pct :=
            ((s :: rest).map VmstatSample.cpu_us_pct).sum / ((s :: rest).length : ℚ)
          avg_cpu_sy_pct :=
            ((s :: rest).map VmstatSample.cpu_sy_pct).sum / ((s :: rest).length : ℚ)
          avg_cpu_id_pct :=
            ((s :: rest).map VmstatSample.cpu_id_pct).sum / ((s :: rest).length : ℚ)
          peak_memory_free_kb :=
            rest.foldl (fun m t => min m t.memory_free_kb) s.memory_free_kb } := by
      have h2 : vmstat_summary (s :: rest) = some _ := rfl
      rw [h2] at h
      exact (Option.some.inj h).symm
    subst hrec
    have hfold : rest.foldl (fun m t => min m t.memory_free_kb) s.memory_free_kb =
        (rest.map VmstatSample.memory_free_kb).foldl min s.memory_free_kb := by
      rw [List.foldl_map]
    refine ⟨rfl, rfl, rfl, rfl, ?_, ?_⟩
    · show rest.foldl (fun m t => min m t.memory_free_kb) s.memory_free_kb ∈ _
      rw [hfold, List.map_cons]
      rcases foldl_min_attained (rest.map VmstatSample.memory_free_kb)
          s.memory_free_kb with hc | hc
      · rw [hc]; exact List.mem_cons_self _ _
      · exact List.mem_cons_of_mem _ hc
    · intro t ht
      show rest.foldl (fun m t => min m t.memory_free_kb) s.memory_free_kb ≤ _
      rw [hfold]
      rcases List.mem_cons.mp ht with hc | hc
      · subst hc
        exact foldl_min_le_start _ _
      · exact foldl_min_le_mem _ _ _ (List.mem_map_of_mem VmstatSample.memory_free_kb hc)

/-- Witness for `vmstat_summary_stats`: a concrete singleton sequence has a
summary record. -/
theorem vmstat_summary_stats_witness :
    (vmstat_summary
      [{ procs_r := 2, procs_b := 0, memory_swpd_kb := 0,
         memory_free_kb := 102400, memory_buff_kb := 20480,
         memory_cache_kb := 512000, swap_si_kb := 0, swap_so_kb := 0,
         io_bi_kb := 5, io_bo_kb := 10, system_in := 100, system_cs := 200,
         cpu_us_pct := 15, cpu_sy_pct := 5, cpu_id_pct := 78,
         cpu_wa_pct := 2, cpu_st_pct := 0, cpu_gu_pct := none }]).isSome = true :=
  (vmstat_summary_stats _).1 (by simp)

/-! ### Claim C6 -/

/-- C6: the single CPU-usage line followed immediately by end of file (no
trailing blank line) yields exactly one flushed sample with
`cpu_us_pct = 12.34`, `cpu_sy_pct = 5.67`, `cpu_id_pct = 82.00` (the values
stated here as the exact rationals `1234/100` and `567/100`); in general,
whenever the accumulator still holds a `cpu_us_pct` key when the lines run
out, it is flushed as a final sample. -/
theorem macos_top_eof_flush :
    (parse_macos_top_log (some ["CPU usage: 12.34% user, 5.67% sys, 82.00% idle"]) =
      .ok [{ cpu_us_pct := some (mkRat 1234 100), cpu_sy_pct := some (mkRat 567 100),
             cpu_id_pct := some 82, cpu_wa_pct := some 0, cpu_st_pct := some 0,
             memory_free_kb := none, memory_swpd_kb := none,
             memory_buff_kb := none, memory_cache_kb := none }]) ∧
    (mkRat 1234 100 : ℚ) = 12.34 ∧ (mkRat 567 100 : ℚ) = 5.67 ∧
    ∀ lines : List String,
      ((lines.foldl topStep ([], emptyTop)).2.cpu_us_pct).isSome = true →
      macosTopCore lines =
        (lines.foldl topStep ([], emptyTop)).1 ++
          [(lines.foldl topStep ([], emptyTop)).2] := by
  refine ⟨rfl, by norm_num [Rat.mkRat_eq_div], by norm_num [Rat.mkRat_eq_div], ?_⟩
  intro lines h
  simp only [macosTopCore]
  rw [if_pos h]

/-- Witness for `macos_top_eof_flush`: the end-of-file flush applied at the
concrete one-line file. -/
theorem macos_top_eof_flush_witness :
    macosTopCore ["CPU usage: 12.34% user, 5.67% sys, 82.00% idle"] =
      (["CPU usage: 12.34% user, 5.67% sys, 82.00% idle"].foldl topStep ([], emptyTop)).1 ++
        [(["CPU usage: 12.34% user, 5.67% sys, 82.00% idle"].foldl topStep ([], emptyTop)).2] :=
  macos_top_eof_flush.2.2.2 _ (by decide)

/-! ### Claim C7 -/

/-- C7: if any of the first five (stripped) lines contains `CPU usage:` or
`PhysMem:`, the file is dispatched to the macOS top parser (taking priority
over iostat); otherwise, if any of those lines case-insensitively contains
both `cpu` and `load average`, or contains `KB/t` together with `us` or
`sy`, it is dispatched to the macOS iostat parser; otherwise it is parsed
as Linux vmstat. -/
theorem vmstat_format_dispatch (lines : List String) :
    ((∃ l ∈ sniffLines lines,
        strContains l "CPU usage:" = true ∨ strContains l "PhysMem:" = true) →
      parse_vmstat_log (some lines) = .top (macosTopCore lines)) ∧
    ((¬ ∃ l ∈ sniffLines lines,
        strContains l "CPU usage:" = true ∨ strContains l "PhysMem:" = true) →
     (∃ l ∈ sniffLines lines,
        (strContains (pyLower l) "cpu" = true ∧
         strContains (pyLower l) "load average" = true) ∨
        (strContains l "KB/t" = true ∧
         (strContains l "us" = true ∨ strContains l "sy" = true))) →
      parse_vmstat_log (some lines) = .iostat (macosIostatCore lines)) ∧
    ((¬ ∃ l ∈ sniffLines lines,
        strContains l "CPU usage:" = true ∨ strContains l "PhysMem:" = true) →
     (¬ ∃ l ∈ sniffLines lines,
        (strContains (pyLower l) "cpu" = true ∧
         strContains (pyLower l) "load average" = true) ∨
        (strContains l "KB/t" = true ∧
         (strContains l "us" = true ∨ strContains l "sy" = true))) →
      parse_vmstat_log (some lines) = .vmstat (parseVmstatLines lines)) := by
  have htop : (sniffLines lines).any sniffTopLine = true ↔
      ∃ l ∈ sniffLines lines,
        strContains l "CPU usage:" = true ∨ strContains l "PhysMem:" = true := by
    simp [List.any_eq_true, sniffTopLine]
  have hio : (sniffLines lines).any sniffIostatLine = true ↔
      ∃ l ∈ sniffLines lines,
        (strContains (pyLower l) "cpu" = true ∧
         strContains (pyLower l) "load average" = true) ∨
        (strContains l "KB/t" = true ∧
         (strContains l "us" = true ∨ strContains l "sy" = true)) := by
    simp [List.any_eq_true, sniffIostatLine]
  refine ⟨?_, ?_, ?_⟩
  · intro h
    simp only [parse_vmstat_log]
    rw [if_pos (htop.mpr h)]
  · intro hnt hi
    simp only [parse_vmstat_log]
    rw [if_neg (fun hc => hnt (htop.mp hc)), if_pos (hio.mpr hi)]
  · intro hnt hni
    simp only [parse_vmstat_log]
    rw [if_neg (fun hc => hnt (htop.mp hc)), if_neg (fun hc => hni (hio.mp hc))]

/-- Witness for `vmstat_format_dispatch`: a first line matching both the
top and the iostat predicates is dispatched to the top parser. -/
theorem vmstat_format_dispatch_witness :
    parse_vmstat_log (some ["CPU usage: 1.0% user load average cpu"]) =
      .top (macosTopCore ["CPU usage: 1.0% user load average cpu"]) :=
  (vmstat_format_dispatch _).1 (by decide)

/-! ### Claim C9 -/

/-- C9: with process-name filter `Foo`, after the pidstat header a data
line containing `foobar` is retained (case-insensitive substring match
anywhere in the line) and yields a sample, while a line containing only
`Bar` is excluded; in general, once the header has been seen, any line
whose lowercased text does not contain the lowercased filter leaves the
parser state unchanged. -/
theorem pidstat_process_filter :
    (parse_pidstat_log (some
        ["Time PID %usr %system %guest %CPU CPU Command",
         "10:00:01 123 1.0 2.0 0.0 3.0 0 foobar",
         "10:00:02 456 1.0 2.0 0.0 3.0 0 Bar"]) "Foo" =
      .pidstat [{ pid := 123, cpu_usr_pct := 1, cpu_system_pct := 2,
                  cpu_guest_pct := 0, cpu_total_pct := 3,
                  memory_rss_kb := none }]) ∧
    ∀ (name line : String) (samples : List PidstatSample),
      strContains (pyLower (pyStrip line)) (pyLower name) = false →
      pidstatStep name (true, samples) line = (true, samples) := by
  refine ⟨by decide, ?_⟩
  intro name line samples h
  simp only [pidstatStep]
  by_cases h1 : (pyStrip line).isEmpty
  · rw [if_pos h1]
  · rw [if_neg h1]
    by_cases h2 : (strContains (pyStrip line) "PID" && strContains (pyStrip line) "CPU") = true
    · rw [if_pos h2]
    · rw [if_neg h2, if_neg (by simp), if_pos (by simp [h])]

/-- Witness for `pidstat_process_filter`: the excluded `Bar` line leaves the
state unchanged under filter `Foo`. -/
theorem pidstat_process_filter_witness :
    pidstatStep "Foo" (true, []) "10:00:02 456 1.0 2.0 0.0 3.0 0 Bar" = (true, []) :=
  pidstat_process_filter.2 "Foo" "10:00:02 456 1.0 2.0 0.0 3.0 0 Bar" [] (by decide)

/-! ### Claim C10 -/

theorem topStep_cpu_inv (rawLine : String) (st : List TopSample × TopSample)
    (hs : ∀ s ∈ st.1, topSampleCpuComplete s)
    (ha : st.2.cpu_us_pct.isSome = true → topSampleCpuComplete st.2) :
    (∀ s ∈ (topStep st rawLine).1, topSampleCpuComplete s) ∧
    ((topStep st rawLine).2.cpu_us_pct.isSome = true →
      topSampleCpuComplete (topStep st rawLine).2) := by
  simp only [topStep]
  by_cases h1 : (pyStrip rawLine).isEmpty
  · rw [if_pos h1]
    by_cases h2 : st.2.cpu_us_pct.isSome = true
    · rw [if_pos h2]
      constructor
      · intro s hmem
        rcases List.mem_append.mp hmem with hm | hm
        · exact hs s hm
        · have he := List.mem_singleton.mp hm
          subst he
          exact ha h2
      · intro hx
        exact absurd hx (by simp [emptyTop])
    · rw [if_neg h2]
      exact ⟨hs, ha⟩
  · rw [if_neg h1]
    by_cases h2 : strContains (pyStrip rawLine) "CPU usage:" = true
    · rw [if_pos h2]
      cases hcs : cpuUsageSearch (pyStrip rawLine).toList with
      | some v =>
        refine ⟨hs, fun _ => ⟨rfl, rfl, rfl, rfl, rfl⟩⟩
      | none => exact ⟨hs, ha⟩
    · rw [if_neg h2]
      by_cases h3 : strContains (pyStrip rawLine) "PhysMem:" = true
      · rw [if_pos h3]
        cases hpm : physMemSearch (pyStrip rawLine).toList with
        | some mb => exact ⟨hs, fun hx => ha hx⟩
        | none => exact ⟨hs, ha⟩
      · rw [if_neg h3]
        exact ⟨hs, ha⟩

theorem topFold_cpu_inv (lines : List String) :
    ∀ st : List TopSample × TopSample,
      (∀ s ∈ st.1, topSampleCpuComplete s) →
      (st.2.cpu_us_pct.isSome = true → topSampleCpuComplete st.2) →
      (∀ s ∈ (lines.foldl topStep st).1, topSampleCpuComplete s) ∧
      ((lines.foldl topStep st).2.cpu_us_pct.isSome = true →
        topSampleCpuComplete (lines.foldl topStep st).2) := by
  induction lines with
  | nil => intro st hs ha; exact ⟨hs, ha⟩
  | cons l ls ih =>
    intro st hs ha
    rw [List.foldl_cons]
    have h := topStep_cpu_inv l st hs ha
    exact ih (topStep st l) h.1 h.2

theorem topStep_mem_inv (rawLine : String) (st : List TopSample × TopSample)
    (hline : strContains (pyStrip rawLine) "PhysMem:" = false)
    (hs : ∀ s ∈ st.1, topSampleMemAbsent s)
    (ha : topSampleMemAbsent st.2) :
    (∀ s ∈ (topStep st rawLine).1, topSampleMemAbsent s) ∧
    topSampleMemAbsent (topStep st rawLine).2 := by
  simp only [topStep]
  by_cases h1 : (pyStrip rawLine).isEmpty
  · rw [if_pos h1]
    by_cases h2 : st.2.cpu_us_pct.isSome = true
    · rw [if_pos h2]
      constructor
      · intro s hmem
        rcases List.mem_append.mp hmem with hm | hm
        · exact hs s hm
        · have he := List.mem_singleton.mp hm
          subst he
          exact ha
      · exact ⟨rfl, rfl, rfl, rfl⟩
    · rw [if_neg h2]
      exact ⟨hs, ha⟩
  · rw [if_neg h1]
    by_cases h2 : strContains (pyStrip rawLine) "CPU usage:" = true
    · rw [if_pos h2]
      cases hcs : cpuUsageSearch (pyStrip rawLine).toList with
      | some v => exact ⟨hs, ha⟩
      | none => exact ⟨hs, ha⟩
    · rw [if_neg h2, if_neg (by simp [hline])]
      exact ⟨hs, ha⟩

theorem topFold_mem_inv (lines : List String) :
    (∀ l ∈ lines, strContains (pyStrip l) "PhysMem:" = false) →
    ∀ st : List TopSample × TopSample,
      (∀ s ∈ st.1, topSampleMemAbsent s) → topSampleMemAbsent st.2 →
      (∀ s ∈ (lines.foldl topStep st).1, topSampleMemAbsent s) ∧
      topSampleMemAbsent (lines.foldl topStep st).2 := by
  induction lines with
  | nil => intro _ st hs ha; exact ⟨hs, ha⟩
  | cons l ls ih =>
    intro hl st hs ha
    rw [List.foldl_cons]
    have h := topStep_mem_inv l st (hl l (List.mem_cons_self l ls)) hs ha
    exact ih (fun x hx => hl x (List.mem_cons_of_mem l hx)) _ h.1 h.2

/-- C10: every sample returned by the macOS top parser carries all five CPU
keys with `cpu_wa_pct = cpu_st_pct = 0.0`; the memory keys, by contrast,
are not guaranteed: whenever no line of the file contains `PhysMem:` (in
particular no `<N>M free` figure occurred in any block), every returned
sample lacks all four memory keys — so a top-derived sample need not carry
the full vmstat field set. -/
theorem macos_top_sample_fields :
    (∀ (lines : List String), ∀ s ∈ macosTopCore lines, topSampleCpuComplete s) ∧
    (∀ (lines : List String),
      (∀ l ∈ lines, strContains (pyStrip l) "PhysMem:" = false) →
      ∀ s ∈ macosTopCore lines, topSampleMemAbsent s) := by
  constructor
  · intro lines s hmem
    have h := topFold_cpu_inv lines ([], emptyTop)
      (by intro x hx; cases hx) (by intro hx; exact absurd hx (by simp [emptyTop]))
    simp only [macosTopCore] at hmem
    by_cases hf : ((lines.foldl topStep ([], emptyTop)).2.cpu_us_pct).isSome = true
    · rw [if_pos hf] at hmem
      rcases List.mem_append.mp hmem with hm | hm
      · exact h.1 s hm
      · have he := List.mem_singleton.mp hm
        subst he
        exact h.2 hf
    · rw [if_neg hf] at hmem
      exact h.1 s hmem
  · intro lines hl s hmem
    have h := topFold_mem_inv lines hl ([], emptyTop)
      (by intro x hx; cases hx) ⟨rfl, rfl, rfl, rfl⟩
    simp only [macosTopCore] at hmem
    by_cases hf : ((lines.foldl topStep ([], emptyTop)).2.cpu_us_pct).isSome = true
    · rw [if_pos hf] at hmem
      rcases List.mem_append.mp hmem with hm | hm
      · exact h.1 s hm
      · have he := List.mem_singleton.mp hm
        subst he
        exact h.2
    · rw [if_neg hf] at hmem
      exact h.1 s hmem

/-- Witness for `macos_top_sample_fields`: the sample flushed from a
PhysMem-free file has all five CPU keys and none of the memory keys. -/
theorem macos_top_sample_fields_witness :
    topSampleCpuComplete
      ((macosTopCore ["CPU usage: 7.5% user, 2.5% sys, 90.0% idle"]).headD emptyTop) ∧
    topSampleMemAbsent
      ((macosTopCore ["CPU usage: 7.5% user, 2.5% sys, 90.0% idle"]).headD emptyTop) :=
  ⟨macos_top_sample_fields.1 ["CPU usage: 7.5% user, 2.5% sys, 90.0% idle"] _
      (by decide),
   macos_top_sample_fields.2 ["CPU usage: 7.5% user, 2.5% sys, 90.0% idle"]
      (by decide) _ (by decide)⟩
